import Mathlib

-- Verification of the DDS (Domain Definition System) validation engine:
-- a shallow embedding of the data model, the pairwise normative-interaction
-- decision procedure (Self-QC), the domain-language closure check, the
-- import-graph algorithms, and the world admissibility / rule-evaluation
-- pipeline, together with theorems settling the specification claims.

namespace DDS

-- ===========================================================================
-- Core vocabulary types (dds/types.py)
-- ===========================================================================

/-- The five normative operators (normative.py, class NormativeOp). -/
inductive NormativeOp
  | MUST
  | MUST_NOT
  | SHOULD
  | SHOULD_NOT
  | MAY
deriving DecidableEq

/-- The `.value` string of each operator (Enum values in normative.py). -/
def NormativeOp.value : NormativeOp → String
  | .MUST => "MUST"
  | .MUST_NOT => "MUST_NOT"
  | .SHOULD => "SHOULD"
  | .SHOULD_NOT => "SHOULD_NOT"
  | .MAY => "MAY"

/-- Attribute presence modes (types.py, class Optionality). -/
inductive Optionality
  | REQUIRED
  | OPTIONAL
  | UNKNOWN_ADMISSIBLE
deriving DecidableEq

def Optionality.value : Optionality → String
  | .REQUIRED => "required"
  | .OPTIONAL => "optional"
  | .UNKNOWN_ADMISSIBLE => "unknown_admissible"

/-- Value-type tags for attributes. The Python field `value_type` holds a
Python `type` object (str/int/float/bool) or None; types are compared by
identity, which this tag models. -/
inductive ValueTag
  | str
  | int
  | float
  | bool
deriving DecidableEq

/-- types.py, class EntityType (frozen dataclass; equality by name). -/
structure EntityType where
  name : String
deriving DecidableEq

/-- types.py, class Attribute (frozen dataclass; equality over all fields). -/
structure Attribute where
  name : String
  entity : EntityType
  value_type : Option ValueTag
  optionality : Optionality
deriving DecidableEq

/-- types.py, class OperationType. -/
structure OperationType where
  name : String
deriving DecidableEq

/-- types.py, class Relation. -/
structure Relation where
  name : String
  source : EntityType
  target : EntityType
deriving DecidableEq

/-- The union type `EntityType | Attribute | OperationType | Relation` used
for normative targets and vocabulary membership. -/
inductive Element
  | entity (e : EntityType)
  | attr (a : Attribute)
  | op (o : OperationType)
  | rel (r : Relation)
deriving DecidableEq

/-- The `__repr__` of each vocabulary element (types.py). -/
def elemRepr : Element → String
  | .entity e => "Entity(" ++ e.name ++ ")"
  | .attr a =>
      "Attr(" ++ a.entity.name ++ "." ++ a.name ++
        (if a.optionality = Optionality.REQUIRED then "" else ", " ++ a.optionality.value) ++ ")"
  | .op o => "Op(" ++ o.name ++ ")"
  | .rel r => "Rel(" ++ r.source.name ++ " --" ++ r.name ++ "--> " ++ r.target.name ++ ")"

-- ===========================================================================
-- Semantic world (validation.py): W = (S, R)
-- ===========================================================================

/-- An attribute value stored in a world element. Values are primitives or
the explicit UNKNOWN sentinel (types.py `_UnknownType`); `None` is never a
value. `UNKNOWN == UNKNOWN` and `bool(UNKNOWN) = False` in the source are
reflected by the `unknown` constructor and by `truthy` below. Float values
do not occur in any claim and are not modelled. -/
inductive Value
  | str (s : String)
  | int (n : Int)
  | bool (b : Bool)
  | unknown
deriving DecidableEq

/-- validation.py, class SemanticElement. `attribute_values` is a Python
dict (unique keys); it is modelled as an association list. -/
structure SemanticElement where
  entity_type : EntityType
  identity : String
  attribute_values : List (String × Value)
  provenance : String

/-- validation.py, class SemanticRelation. -/
structure SemanticRelation where
  relation : Relation
  source_id : String
  target_id : String
  provenance : String

/-- validation.py, class SemanticWorld. -/
structure SemanticWorld where
  elements : List SemanticElement
  relations : List SemanticRelation

/-- `dict.get(name)` on an element's attribute map. -/
def attrGet (vals : List (String × Value)) (name : String) : Option Value :=
  (vals.find? (fun p => decide (p.1 = name))).map (fun p => p.2)

/-- SemanticWorld.get_elements_by_type. -/
def SemanticWorld.get_elements_by_type (w : SemanticWorld) (et : EntityType) :
    List SemanticElement :=
  w.elements.filter (fun e => decide (e.entity_type = et))

/-- SemanticWorld.get_element_by_id (first element with that identity). -/
def SemanticWorld.get_element_by_id (w : SemanticWorld) (id : String) :
    Option SemanticElement :=
  w.elements.find? (fun e => decide (e.identity = id))

-- ===========================================================================
-- Conditions and predicates
-- ===========================================================================

/-- The observable outcome of invoking a rule condition or a constraint
predicate on a world. Source conditions are arbitrary callables that return
a boolean, a list of violation strings, or the UNKNOWN sentinel, or raise an
exception; `raises` models the raised exception with its message string. -/
inductive CondRet
  | retBool (b : Bool)
  | retList (l : List String)
  | retUnknown
  | raises (msg : String)
deriving DecidableEq

/-- Python truthiness of a condition result: nonempty lists are truthy,
`UNKNOWN.__bool__` returns False (types.py). The `raises` case never
reaches a truthiness test in the source (the exception is caught first). -/
def truthy : CondRet → Bool
  | .retBool b => b
  | .retList l => !l.isEmpty
  | .retUnknown => false
  | .raises _ => false

-- ===========================================================================
-- Normative rules (dds/normative.py)
-- ===========================================================================

/-- types.py, class NormativeTarget. Conditions are not compared for
equality in the source (`compare=False`). -/
structure NormativeTarget where
  element : Element
  condition : Option (SemanticWorld → CondRet)
  description : String

/-- normative.py, class NormativeRule. `rid` is a surrogate for Python
object identity: the source override check uses `a.override_ref is b`, and
`override_ref` here stores the rid of the overridden rule object. -/
structure NormativeRule where
  rid : Nat
  operator : NormativeOp
  target : NormativeTarget
  override_ref : Option Nat

/-- NormativeRule.__repr__. -/
def ruleRepr (r : NormativeRule) : String :=
  r.operator.value ++ "(" ++ elemRepr r.target.element ++ ")" ++
    (if r.override_ref.isSome then " [OVERRIDE]" else "")

/-- normative.py, class FindingType (the six Self-QC finding kinds). -/
inductive FindingType
  | CONFLICT
  | EXCEPTION
  | OVERRIDE
  | OVERLAP
  | AMBIGUITY
  | NO_DEFAULT
deriving DecidableEq

/-- normative.py, class Severity. -/
inductive Severity
  | ERROR
  | WARNING
  | INFO
deriving DecidableEq

/-- normative.py, class InteractionDiagnostic. -/
structure InteractionDiagnostic where
  severity : Severity
  finding_type : FindingType
  rule_a : NormativeRule
  rule_b : NormativeRule
  message : String

/-- The severity and finding kind of a diagnostic, the pair the claims
about the decision procedure talk about. -/
def diagKind (d : InteractionDiagnostic) : Severity × FindingType :=
  (d.severity, d.finding_type)

/-- `_COMPATIBLE_PAIRS` (normative.py): a set of unordered operator pairs,
modelled as a list tested symmetrically by `pairMem`. -/
def compatiblePairs : List (NormativeOp × NormativeOp) :=
  [(.MUST, .MUST), (.MUST, .SHOULD), (.MUST, .MAY),
   (.SHOULD, .SHOULD), (.SHOULD, .MAY), (.MAY, .MAY),
   (.MUST_NOT, .MUST_NOT), (.MUST_NOT, .SHOULD_NOT), (.SHOULD_NOT, .SHOULD_NOT)]

/-- `_CONFLICTING_PAIRS` (normative.py): the six unordered conflicting
operator pairs. -/
def conflictingPairs : List (NormativeOp × NormativeOp) :=
  [(.MUST, .MUST_NOT), (.MUST, .SHOULD_NOT), (.SHOULD, .MUST_NOT),
   (.SHOULD, .SHOULD_NOT), (.MAY, .MUST_NOT), (.MAY, .SHOULD_NOT)]

/-- Membership of the unordered pair `{a, b}` in a list of pairs (models
`frozenset({a, b}) in S`). -/
def pairMem (l : List (NormativeOp × NormativeOp)) (a b : NormativeOp) : Bool :=
  l.any (fun p => (decide (p.1 = a) && decide (p.2 = b)) ||
                  (decide (p.1 = b) && decide (p.2 = a)))

/-- normative.py, is_compatible_pair. -/
def is_compatible_pair (a b : NormativeOp) : Bool :=
  pairMem compatiblePairs a b || decide (a = b)

/-- `_CONFLICTING_PAIRS.get(ops, "Conflicting modalities")` — the reason
string attached to each conflicting pair. -/
def conflictReason : NormativeOp → NormativeOp → String
  | .MUST, .MUST_NOT | .MUST_NOT, .MUST => "Requiring and prohibiting the same element"
  | .MUST, .SHOULD_NOT | .SHOULD_NOT, .MUST => "Obligating a discouraged element"
  | .SHOULD, .MUST_NOT | .MUST_NOT, .SHOULD => "Recommending a prohibited element"
  | .SHOULD, .SHOULD_NOT | .SHOULD_NOT, .SHOULD => "Recommending and discouraging the same element"
  | .MAY, .MUST_NOT | .MUST_NOT, .MAY => "Permitting a prohibited element"
  | .MAY, .SHOULD_NOT | .SHOULD_NOT, .MAY => "Permitting a discouraged element"
  | _, _ => "Conflicting modalities"

/-- The source override test
`(a.override_ref is not None and a.override_ref is b) or (b.override_ref is
not None and b.override_ref is a)`, with `is` rendered through rids. -/
def overridePresent (a b : NormativeRule) : Bool :=
  decide (a.override_ref = some b.rid) || decide (b.override_ref = some a.rid)

def overlapMsg (a b : NormativeRule) : String :=
  "Overlap: " ++ a.operator.value ++ " and " ++ b.operator.value ++
    " on same target " ++ elemRepr a.target.element

def exceptionMsg (specific general : NormativeRule) (targetRepr : String) : String :=
  "Exception (lex specialis): " ++ specific.operator.value ++
    " conditionally excepts " ++ general.operator.value ++ " on " ++ targetRepr

def overrideMsg (targetRepr : String) : String :=
  "Override: intentional replacement on " ++ targetRepr

def ambiguityMsg (a b : NormativeRule) (targetRepr : String) : String :=
  "Ambiguity: " ++ a.operator.value ++ " and " ++ b.operator.value ++ " on " ++
    targetRepr ++ " — condition relationship not declared"

def conflictMsg (a b : NormativeRule) (targetRepr : String) : String :=
  "Conflict: " ++ conflictReason a.operator b.operator ++ " on " ++ targetRepr

/-- normative.py, check_interaction: the Self-QC decision table over a pair
of rules. Returns none when the targets differ. -/
def check_interaction (a b : NormativeRule) : Option InteractionDiagnostic :=
  if a.target.element = b.target.element then
    if is_compatible_pair a.operator b.operator then
      some ⟨.INFO, .OVERLAP, a, b, overlapMsg a b⟩
    else if a.target.condition.isSome != b.target.condition.isSome then
      some ⟨.INFO, .EXCEPTION,
            (if a.target.condition.isSome then a else b),
            (if a.target.condition.isSome then b else a),
            exceptionMsg (if a.target.condition.isSome then a else b)
              (if a.target.condition.isSome then b else a)
              (elemRepr a.target.element)⟩
    else if a.target.condition.isSome && b.target.condition.isSome then
      if overridePresent a b then
        some ⟨.INFO, .OVERRIDE, a, b, overrideMsg (elemRepr a.target.element)⟩
      else
        some ⟨.WARNING, .AMBIGUITY, a, b, ambiguityMsg a b (elemRepr a.target.element)⟩
    else if overridePresent a b then
      some ⟨.INFO, .OVERRIDE, a, b, overrideMsg (elemRepr a.target.element)⟩
    else
      some ⟨.ERROR, .CONFLICT, a, b, conflictMsg a b (elemRepr a.target.element)⟩
  else
    none

/-- normative.py, check_all_interactions: every unordered pair `i < j`
in order, keeping non-null findings. -/
def check_all_interactions : List NormativeRule → List InteractionDiagnostic
  | [] => []
  | r :: rest => rest.filterMap (fun s => check_interaction r s) ++ check_all_interactions rest

-- ===========================================================================
-- Domain Language (dds/domain_language.py)
-- ===========================================================================

/-- types.py, class Constraint. `references` is documentation only and is
never read by the validation code. -/
structure Constraint where
  name : String
  description : String
  predicate : SemanticWorld → CondRet
  references : List Element

/-- types.py, class ImportDecl. -/
structure ImportDecl where
  target_name : String
deriving DecidableEq

/-- domain_language.py, class DomainLanguage. Python sets and dicts are
modelled as lists (membership is all the validation code uses of the set
structure; `attributes` is a dict from entity to its attribute list). -/
structure DomainLanguage where
  name : String
  entities : List EntityType
  attributes : List (EntityType × List Attribute)
  operations : List OperationType
  normative_rules : List NormativeRule
  constraints : List Constraint
  imports : List ImportDecl
  relations : List Relation

/-- DomainLanguage.vocab: `Vocab(DomL) = E ∪ range(A) ∪ O` — entities, all
attributes, operations; relations and rules excluded. -/
def vocab (lang : DomainLanguage) : List Element :=
  lang.entities.map Element.entity ++
  lang.attributes.flatMap (fun p => p.2.map Element.attr) ++
  lang.operations.map Element.op

/-- `resolved_imports.get(name)` over the `dict[str, DomainLanguage]`
argument of check_closure (and the `graph.languages` dict). -/
def lookupLang (m : List (String × DomainLanguage)) (n : String) :
    Option DomainLanguage :=
  (m.find? (fun p => decide (p.1 = n))).map (fun p => p.2)

/-- The unresolved-import error string of check_closure. -/
def unresolvedImportMsg (name : String) : String :=
  "Unresolved import: " ++ name

/-- The unknown-target error string of check_closure. -/
def closureRuleErr (rule : NormativeRule) : String :=
  "Normative rule " ++ ruleRepr rule ++ " references unknown element: " ++
    elemRepr rule.target.element

/-- The `all_elements` set of check_closure: local vocab, extended with the
vocab of each import that resolves in `resolved_imports` (when supplied),
together with the language's declared relations. -/
def allElementsOf (lang : DomainLanguage)
    (resolvedImports : Option (List (String × DomainLanguage))) : List Element :=
  (vocab lang ++
    (match resolvedImports with
     | none => []
     | some m => lang.imports.flatMap (fun imp =>
         match lookupLang m imp.target_name with
         | some l => vocab l
         | none => []))) ++
  lang.relations.map Element.rel

/-- domain_language.py, DomainLanguage.check_closure: unresolved imports are
reported first (while building the extended vocabulary), then every
normative rule whose target is outside `all_elements`. -/
def check_closure (lang : DomainLanguage)
    (resolvedImports : Option (List (String × DomainLanguage))) : List String :=
  (match resolvedImports with
   | none => []
   | some m => lang.imports.filterMap (fun imp =>
       if (lookupLang m imp.target_name).isNone then
         some (unresolvedImportMsg imp.target_name)
       else none)) ++
  lang.normative_rules.filterMap (fun rule =>
    if rule.target.element ∈ allElementsOf lang resolvedImports then none
    else some (closureRuleErr rule))

-- ===========================================================================
-- Domain Language Graph (dds/domain_language_graph.py)
-- ===========================================================================

/-- domain_language_graph.py, class DomLGEdge (the label has a single
value, IMPORTS, and is omitted). -/
structure DomLGEdge where
  source : String
  target : String
deriving DecidableEq

/-- domain_language_graph.py, class DomainLanguageGraph. The `languages`
dict (insertion-ordered in Python) is an association list. -/
structure DomainLanguageGraph where
  languages : List (String × DomainLanguage)
  edges : List DomLGEdge

/-- `graph.languages.values()` in iteration (insertion) order. -/
def langValues (g : DomainLanguageGraph) : List DomainLanguage :=
  g.languages.map (fun p => p.2)

/-- `graph.languages` key list in iteration order. -/
def langNames (g : DomainLanguageGraph) : List String :=
  g.languages.map (fun p => p.1)

/-- composed_vocab: the union of every language's vocab. -/
def composed_vocab (g : DomainLanguageGraph) : List Element :=
  (langValues g).flatMap vocab

/-- The EntityType members of composed_vocab (the set comprehension
`{item for item in composed if isinstance(item, EntityType)}` in
_check_vocabulary_closure). -/
def composedEntityTypes (g : DomainLanguageGraph) : List EntityType :=
  (composed_vocab g).filterMap (fun el =>
    match el with
    | .entity e => some e
    | _ => none)

/-- composed_relations: all declared relations across all languages. -/
def composed_relations (g : DomainLanguageGraph) : List Relation :=
  (langValues g).flatMap (fun l => l.relations)

-- Cycle detection (detect_import_cycles): a depth-first traversal with
-- white/gray/black colouring. The Python recursion terminates because each
-- call recurses only into white nodes and colours its node first; the
-- embedding makes that explicit with a fuel argument that the top-level
-- caller sets larger than the recursion can consume, so the zero-fuel
-- branch is unreachable.

inductive Color
  | white
  | gray
  | black
deriving DecidableEq

/-- The adjacency list built from the edge list (defaultdict of lists,
targets kept in edge order). -/
def adjOf (edges : List DomLGEdge) (s : String) : List String :=
  (edges.filter (fun e => decide (e.source = s))).map (fun e => e.target)

def setColor (c : String → Color) (n : String) (v : Color) : String → Color :=
  fun m => if m = n then v else c m

/-- One `dfs(node)` call of detect_import_cycles: colours the node gray,
pushes it on the path, scans neighbours (recording a cycle on a gray
neighbour, recursing on a white one), then colours the node black. The
path is passed by value since the Python push/pop brackets the call. -/
def dfsCycles (adj : String → List String) :
    Nat → String → (String → Color) → List String → List (List String) →
    ((String → Color) × List (List String))
  | 0, _, color, _, cycles => (color, cycles)
  | fuel + 1, node, color, path, cycles =>
      let color := setColor color node .gray
      let path := path ++ [node]
      let scanned := (adj node).foldl
        (fun (st : (String → Color) × List (List String)) nb =>
          if st.1 nb = Color.gray then
            (st.1, st.2 ++ [path.drop (path.indexOf nb) ++ [nb]])
          else if st.1 nb = Color.white then
            dfsCycles adj fuel nb st.1 path st.2
          else st)
        (color, cycles)
      (setColor scanned.1 node .black, scanned.2)

/-- detect_import_cycles: run the DFS from every still-white node. -/
def detect_import_cycles (g : DomainLanguageGraph) : List (List String) :=
  let adj := adjOf g.edges
  let fuel := g.languages.length + 1
  let res := (langNames g).foldl
    (fun (st : (String → Color) × List (List String)) node =>
      if st.1 node = Color.white then dfsCycles adj fuel node st.1 [] st.2
      else st)
    ((fun _ => Color.white), [])
  res.2

-- Topological order (topological_order). The source intends Kahn's
-- algorithm, but its loop `in_degree.setdefault(edge.target, 0)` never
-- increments any in-degree: every node keeps in-degree 0, the initial
-- queue contains every language, decrements only go negative, and the
-- loop therefore emits all names in sorted order. The embedding mirrors
-- this faithfully (in-degrees are Int since they go negative).

def lookupInt (m : List (String × Int)) (n : String) : Option Int :=
  (m.find? (fun p => decide (p.1 = n))).map (fun p => p.2)

def setInt (m : List (String × Int)) (n : String) (v : Int) : List (String × Int) :=
  m.map (fun p => if p.1 = n then (p.1, v) else p)

/-- `dict.setdefault(k, 0)`. -/
def setDefaultInt (m : List (String × Int)) (n : String) : List (String × Int) :=
  match lookupInt m n with
  | some _ => m
  | none => m ++ [(n, 0)]

/-- Lexicographic comparison of strings by code point (the order Python
`list.sort()` uses on `str`), written on the character lists so that it
evaluates inside the kernel. -/
def strListLE : List Char → List Char → Bool
  | [], _ => true
  | _ :: _, [] => false
  | a :: as, b :: bs =>
      if a.toNat < b.toNat then true
      else if b.toNat < a.toNat then false
      else strListLE as bs

def strLE (s t : String) : Bool :=
  strListLE s.data t.data

/-- Insertion sort on strings, modelling `list.sort()` on the queue. -/
def insertSorted (s : String) : List String → List String
  | [] => [s]
  | t :: ts => if strLE s t then s :: t :: ts else t :: insertSorted s ts

def sortStrings (l : List String) : List String :=
  l.foldr insertSorted []

/-- The `while queue` loop of topological_order: sort the queue, pop its
head, decrement each neighbour's in-degree, and enqueue a neighbour whose
in-degree reaches exactly 0. Fuel bounds the iterations; the caller
supplies more than the loop can use. -/
def kahnLoop (adj : String → List String) :
    Nat → List String → List (String × Int) → List String → List String
  | 0, _, _, order => order
  | _ + 1, [], _, order => order
  | fuel + 1, queue, indeg, order =>
      let sorted := sortStrings queue
      match sorted with
      | [] => order
      | node :: rest =>
          let step := (adj node).foldl
            (fun (st : List (String × Int) × List String) nb =>
              let d := (lookupInt st.1 nb).getD 0 - 1
              let m := setInt st.1 nb d
              if d = 0 then (m, st.2 ++ [nb]) else (m, st.2))
            (indeg, rest)
          kahnLoop adj fuel step.2 step.1 (order ++ [node])

/-- topological_order: None when a cycle exists, otherwise the Kahn loop
(with the missing in-degree increment, see above); None also if the loop
emitted fewer names than there are languages. -/
def topological_order (g : DomainLanguageGraph) : Option (List String) :=
  if detect_import_cycles g ≠ [] then none
  else
    let adj := adjOf g.edges
    let indeg0 := (langNames g).map (fun n => (n, (0 : Int)))
    let indeg := g.edges.foldl (fun m e => setDefaultInt m e.target) indeg0
    let queue := (langNames g).filter (fun n => decide ((lookupInt indeg n).getD 0 = 0))
    let order := kahnLoop adj (g.languages.length + g.edges.length + 1) queue indeg []
    if order.length ≠ g.languages.length then none else some order

-- ===========================================================================
-- Validation result types (dds/validation.py)
-- ===========================================================================

/-- validation.py, class ConditionStatus. -/
inductive ConditionStatus
  | PASS
  | FAIL
  | UNKNOWN_PRESENT
deriving DecidableEq

/-- validation.py, class ConditionResult. -/
structure ConditionResult where
  condition_number : Nat
  condition_name : String
  status : ConditionStatus
  details : List String

/-- ConditionResult.passed: `status in (PASS, UNKNOWN_PRESENT)` —
UNKNOWN_PRESENT is a passing status. -/
def ConditionResult.passed (c : ConditionResult) : Bool :=
  decide (c.status = ConditionStatus.PASS) ||
  decide (c.status = ConditionStatus.UNKNOWN_PRESENT)

/-- validation.py, class AdmissibilityResult. -/
structure AdmissibilityResult where
  conditions : List ConditionResult

/-- AdmissibilityResult.is_admissible: all conditions passed. -/
def AdmissibilityResult.is_admissible (r : AdmissibilityResult) : Bool :=
  r.conditions.all ConditionResult.passed

/-- AdmissibilityResult.has_unknowns. -/
def AdmissibilityResult.has_unknowns (r : AdmissibilityResult) : Bool :=
  r.conditions.any (fun c => decide (c.status = ConditionStatus.UNKNOWN_PRESENT))

/-- validation.py, class RuleEvaluationResult. -/
structure RuleEvaluationResult where
  violations : List String
  advisories : List String
  constraint_failures : List String
deriving DecidableEq

/-- RuleEvaluationResult.is_valid: no violations and no constraint
failures. -/
def RuleEvaluationResult.is_valid (r : RuleEvaluationResult) : Bool :=
  decide (r.violations.length = 0) && decide (r.constraint_failures.length = 0)

/-- validation.py, class ValidationResult (five conditions). -/
structure ValidationResult where
  conditions : List ConditionResult

/-- ValidationResult.is_valid: all five conditions passed. -/
def ValidationResult.is_valid (r : ValidationResult) : Bool :=
  r.conditions.all ConditionResult.passed

/-- ValidationResult.has_unknowns. -/
def ValidationResult.has_unknowns (r : ValidationResult) : Bool :=
  r.conditions.any (fun c => decide (c.status = ConditionStatus.UNKNOWN_PRESENT))

-- ===========================================================================
-- Layer 3: evaluate_rules (execution layer)
-- ===========================================================================

/-- `target.description or repr(target.element)` (empty string is falsy). -/
def descOf (t : NormativeTarget) : String :=
  if t.description = "" then elemRepr t.element else t.description

/-- The `"  -> {v}"` item lines appended when a condition returned a list. -/
def subLines (v : CondRet) : List String :=
  match v with
  | .retList l => l.map (fun s => "  -> " ++ s)
  | _ => []

def mustNotErrMsg (e : String) : String :=
  "Error evaluating MUST_NOT condition: " ++ e

def mustNotEntityMsg (et : EntityType) (count : Nat) : String :=
  "MUST_NOT(" ++ elemRepr (Element.entity et) ++ "): forbidden entity type found (" ++
    toString count ++ " instances)"

/-- The violations contributed by one rule in the MUST_NOT pass of
evaluate_rules: a raising condition is caught and reported as a string; a
truthy result yields a header plus the list items; a conditionless
MUST_NOT on an entity type is violated by any instance of that type. -/
def must_not_violations (w : SemanticWorld) (rule : NormativeRule) : List String :=
  if rule.operator = NormativeOp.MUST_NOT then
    match rule.target.condition with
    | some c =>
        match c w with
        | .raises e => [mustNotErrMsg e]
        | v => if truthy v then ("MUST_NOT violation: " ++ descOf rule.target) :: subLines v
               else []
    | none =>
        match rule.target.element with
        | .entity et =>
            let els := w.get_elements_by_type et
            if !els.isEmpty then [mustNotEntityMsg et els.length] else []
        | _ => []
  else []

/-- The advisories contributed by one rule in the SHOULD pass: a raising
condition is swallowed (`except Exception: pass`), reporting nothing. -/
def should_advisories (w : SemanticWorld) (rule : NormativeRule) : List String :=
  if rule.operator = NormativeOp.SHOULD then
    match rule.target.condition with
    | some c =>
        match c w with
        | .raises _ => []
        | v => if truthy v then ("SHOULD advisory: " ++ descOf rule.target) :: subLines v
               else []
    | none => []
  else []

/-- The advisories contributed by one rule in the SHOULD_NOT pass; raising
conditions are swallowed exactly as in the SHOULD pass. -/
def should_not_advisories (w : SemanticWorld) (rule : NormativeRule) : List String :=
  if rule.operator = NormativeOp.SHOULD_NOT then
    match rule.target.condition with
    | some c =>
        match c w with
        | .raises _ => []
        | v => if truthy v then ("SHOULD_NOT advisory: " ++ descOf rule.target) :: subLines v
               else []
    | none => []
  else []

def constraintErrMsg (name e : String) : String :=
  "Error evaluating constraint \x27" ++ name ++ "\x27: " ++ e

def constraintFailMsg (langName : String) (c : Constraint) : String :=
  "[" ++ langName ++ "] " ++ c.name ++ ": " ++ c.description

/-- The failures contributed by one constraint: a raising predicate is
caught and reported; a falsy result is a failure. -/
def constraint_failures_of (langName : String) (w : SemanticWorld)
    (c : Constraint) : List String :=
  match c.predicate w with
  | .raises e => [constraintErrMsg c.name e]
  | v => if truthy v then [] else [constraintFailMsg langName c]

/-- validation.py, evaluate_rules: for each language in order, the MUST_NOT
pass feeds `violations`, the SHOULD then SHOULD_NOT passes feed
`advisories`, and the constraint pass feeds `constraint_failures`. -/
def evaluate_rules (g : DomainLanguageGraph) (w : SemanticWorld) :
    RuleEvaluationResult where
  violations :=
    (langValues g).flatMap (fun l => l.normative_rules.flatMap (must_not_violations w))
  advisories :=
    (langValues g).flatMap (fun l =>
      l.normative_rules.flatMap (should_advisories w) ++
      l.normative_rules.flatMap (should_not_advisories w))
  constraint_failures :=
    (langValues g).flatMap (fun l => l.constraints.flatMap (constraint_failures_of l.name w))

-- ===========================================================================
-- Condition 1: Vocabulary Closure (_check_vocabulary_closure)
-- ===========================================================================

def vocabElemMsg (e : SemanticElement) : String :=
  "Entity type \x27" ++ e.entity_type.name ++ "\x27 (element \x27" ++ e.identity ++
    "\x27) not in Vocab(DomLG)"

def vocabRelMsg (r : SemanticRelation) : String :=
  "Relation \x27" ++ r.relation.name ++ "\x27 not declared in any Domain Language"

/-- _check_vocabulary_closure: every element's entity type must be in the
composed vocabulary's entity subset, every asserted relation's kind in the
composed relations; each miss appends a detail and fails the condition. -/
def check_vocabulary_closure (g : DomainLanguageGraph) (w : SemanticWorld) :
    ConditionResult :=
  let details :=
    w.elements.filterMap (fun e =>
      if e.entity_type ∈ composedEntityTypes g then none else some (vocabElemMsg e)) ++
    w.relations.filterMap (fun r =>
      if r.relation ∈ composed_relations g then none else some (vocabRelMsg r))
  ⟨1, "Vocabulary Closure",
   if details.isEmpty then ConditionStatus.PASS else ConditionStatus.FAIL,
   details⟩

-- ===========================================================================
-- Condition 2: Relation Admissibility (_check_relation_admissibility)
-- ===========================================================================

/-- The names of the languages whose entity set contains `et`
(the `type_to_lang` map of _check_relation_admissibility). -/
def langsOfEntity (g : DomainLanguageGraph) (et : EntityType) : List String :=
  (g.languages.filter (fun p => decide (et ∈ p.2.entities))).map (fun p => p.1)

/-- Whether any language declares the relation (the `rel_to_lang` map is
only ever tested for membership). -/
def relDeclared (g : DomainLanguageGraph) (r : Relation) : Bool :=
  (langValues g).any (fun l => decide (r ∈ l.relations))

/-- Python renders `set[str]` values inside an f-string; the exact text of
that one detail is irrelevant to every claim, and braces are escaped. -/
def setRepr (names : List String) : String :=
  "\x7b" ++ String.intercalate ", " (names.map (fun n => "\x27" ++ n ++ "\x27")) ++ "\x7d"

def relUnknownRelMsg (sr : SemanticRelation) : String :=
  "Relation \x27" ++ sr.relation.name ++ "\x27 not declared in any Domain Language"

def relUnknownElemsMsg (sr : SemanticRelation) : String :=
  "Relation \x27" ++ sr.relation.name ++ "\x27 references unknown element(s): source=" ++
    sr.source_id ++ ", target=" ++ sr.target_id

def relSourceTypeMsg (sr : SemanticRelation) (se : SemanticElement) : String :=
  "Relation \x27" ++ sr.relation.name ++ "\x27: source \x27" ++ se.identity ++
    "\x27 has type \x27" ++ se.entity_type.name ++ "\x27, expected \x27" ++
    sr.relation.source.name ++ "\x27"

def relTargetTypeMsg (sr : SemanticRelation) (te : SemanticElement) : String :=
  "Relation \x27" ++ sr.relation.name ++ "\x27: target \x27" ++ te.identity ++
    "\x27 has type \x27" ++ te.entity_type.name ++ "\x27, expected \x27" ++
    sr.relation.target.name ++ "\x27"

def relCrossLangMsg (sr : SemanticRelation) (srcLangs tgtLangs : List String) : String :=
  "Cross-language relation \x27" ++ sr.relation.name ++ "\x27 between " ++
    setRepr srcLangs ++ " and " ++ setRepr tgtLangs ++ " has no DomLG edge"

/-- The details produced for one asserted relation by
_check_relation_admissibility (each detail also sets the failed flag; a
`continue` in the source corresponds to returning early). -/
def relationDetails (g : DomainLanguageGraph) (w : SemanticWorld)
    (sr : SemanticRelation) : List String :=
  if !(relDeclared g sr.relation) then [relUnknownRelMsg sr]
  else
    match w.get_element_by_id sr.source_id, w.get_element_by_id sr.target_id with
    | none, _ => [relUnknownElemsMsg sr]
    | _, none => [relUnknownElemsMsg sr]
    | some se, some te =>
        (if se.entity_type ≠ sr.relation.source then [relSourceTypeMsg sr se] else []) ++
        (if te.entity_type ≠ sr.relation.target then [relTargetTypeMsg sr te] else []) ++
        (let srcLangs := langsOfEntity g se.entity_type
         let tgtLangs := langsOfEntity g te.entity_type
         if !srcLangs.isEmpty && !tgtLangs.isEmpty &&
            !(srcLangs.any (fun n => decide (n ∈ tgtLangs))) then
           if g.edges.any (fun e =>
               (decide (e.source ∈ srcLangs) && decide (e.target ∈ tgtLangs)) ||
               (decide (e.source ∈ tgtLangs) && decide (e.target ∈ srcLangs))) then []
           else [relCrossLangMsg sr srcLangs tgtLangs]
         else [])

/-- _check_relation_admissibility. -/
def check_relation_admissibility (g : DomainLanguageGraph) (w : SemanticWorld) :
    ConditionResult :=
  let details := w.relations.flatMap (relationDetails g w)
  ⟨2, "Relation Admissibility",
   if details.isEmpty then ConditionStatus.PASS else ConditionStatus.FAIL,
   details⟩

-- ===========================================================================
-- Condition 3: Completeness with Explicit Gaps (_check_completeness)
-- ===========================================================================

def mustAttrOmitMsg (a : Attribute) (e : SemanticElement) : String :=
  "MUST(" ++ elemRepr (Element.attr a) ++ "): element \x27" ++ e.identity ++
    "\x27 silently omits required attribute"

def mustAttrUnknownMsg (a : Attribute) (e : SemanticElement) : String :=
  "MUST(" ++ elemRepr (Element.attr a) ++ "): element \x27" ++ e.identity ++
    "\x27 has UNKNOWN value (explicit gap)"

def mustRelMissingMsg (r : Relation) (e : SemanticElement) : String :=
  "MUST(" ++ elemRepr (Element.rel r) ++ "): element \x27" ++ e.identity ++
    "\x27 missing required relation"

/-- The completeness scan of one element against a MUST attribute: a
missing key is a failure entry (flag true), an UNKNOWN value is an
explicit-gap entry (flag false), a concrete value yields nothing. -/
def completenessEntryOfElem (a : Attribute) (e : SemanticElement) :
    Option (String × Bool) :=
  match attrGet e.attribute_values a.name with
  | none => some (mustAttrOmitMsg a e, true)
  | some Value.unknown => some (mustAttrUnknownMsg a e, false)
  | some _ => none

/-- The (detail, is-failure) entries produced for one rule in
_check_completeness: only MUST rules contribute; an attribute target scans
every element of the owning entity type, a relation target scans every
element of the source type for an outgoing edge of that kind. -/
def completenessEntriesOfRule (w : SemanticWorld) (rule : NormativeRule) :
    List (String × Bool) :=
  if rule.operator = NormativeOp.MUST then
    match rule.target.element with
    | .attr a => (w.get_elements_by_type a.entity).filterMap (completenessEntryOfElem a)
    | .rel r =>
        (w.get_elements_by_type r.source).filterMap (fun e =>
          if w.relations.any (fun sr =>
              decide (sr.relation = r) && decide (sr.source_id = e.identity)) then none
          else some (mustRelMissingMsg r e, true))
    | _ => []
  else []

def completenessEntries (g : DomainLanguageGraph) (w : SemanticWorld) :
    List (String × Bool) :=
  (langValues g).flatMap (fun lang =>
    lang.normative_rules.flatMap (completenessEntriesOfRule w))

/-- The `failed` flag of _check_completeness: some entry is a failure. -/
def completeness_failed (g : DomainLanguageGraph) (w : SemanticWorld) : Bool :=
  (completenessEntries g w).any (fun p => p.2)

/-- The `has_unknowns` flag of _check_completeness: some entry is an
explicit UNKNOWN gap. -/
def completeness_has_unknowns (g : DomainLanguageGraph) (w : SemanticWorld) : Bool :=
  (completenessEntries g w).any (fun p => !p.2)

/-- _check_completeness: FAIL if anything failed, else UNKNOWN_PRESENT if
any explicit gap was seen, else PASS. -/
def check_completeness (g : DomainLanguageGraph) (w : SemanticWorld) :
    ConditionResult :=
  ⟨3, "Completeness with Explicit Gaps",
   if completeness_failed g w then ConditionStatus.FAIL
   else if completeness_has_unknowns g w then ConditionStatus.UNKNOWN_PRESENT
   else ConditionStatus.PASS,
   (completenessEntries g w).map (fun p => p.1)⟩

-- ===========================================================================
-- Condition 4: No Implicit Inference (_check_no_inference)
-- ===========================================================================

def noProvElemMsg (e : SemanticElement) : String :=
  "Element \x27" ++ e.identity ++ "\x27 (" ++ e.entity_type.name ++
    ") has no provenance — may be inferred"

def noProvRelMsg (r : SemanticRelation) : String :=
  "Relation \x27" ++ r.relation.name ++ "\x27 (" ++ r.source_id ++ " -> " ++
    r.target_id ++ ") has no provenance — may be inferred"

/-- _check_no_inference: missing provenance is recorded as a detail, and
the condition status is unconditionally PASS. -/
def check_no_inference (w : SemanticWorld) : ConditionResult :=
  ⟨4, "No Implicit Inference", ConditionStatus.PASS,
   w.elements.filterMap (fun e =>
     if e.provenance = "" then some (noProvElemMsg e) else none) ++
   w.relations.filterMap (fun r =>
     if r.provenance = "" then some (noProvRelMsg r) else none)⟩

-- ===========================================================================
-- Condition 5: Consistency (_check_consistency) and the combined pipeline
-- ===========================================================================

/-- _check_consistency: delegates to evaluate_rules; violations and
constraint failures are failing details (the latter prefixed), advisories
are non-failing details. -/
def check_consistency (g : DomainLanguageGraph) (w : SemanticWorld) :
    ConditionResult :=
  let rr := evaluate_rules g w
  let details := rr.violations ++ rr.advisories ++
    rr.constraint_failures.map (fun cf => "Constraint violation: " ++ cf)
  ⟨5, "Consistency",
   if rr.violations.isEmpty && rr.constraint_failures.isEmpty then ConditionStatus.PASS
   else ConditionStatus.FAIL,
   details⟩

/-- validation.py, check_admissibility: conditions 1-4 in order. -/
def check_admissibility (g : DomainLanguageGraph) (w : SemanticWorld) :
    AdmissibilityResult :=
  ⟨[check_vocabulary_closure g w,
    check_relation_admissibility g w,
    check_completeness g w,
    check_no_inference w]⟩

/-- validation.py, validate: all five conditions, the fifth computed
unconditionally (no gating on conditions 1-4). -/
def validate (g : DomainLanguageGraph) (w : SemanticWorld) : ValidationResult :=
  ⟨[check_vocabulary_closure g w,
    check_relation_admissibility g w,
    check_completeness g w,
    check_no_inference w,
    check_consistency g w]⟩

-- ===========================================================================
-- Concrete instances used to evaluate the definitions at specific inputs
-- ===========================================================================

/-- A one-language graph holding a single rule with the given operator,
target element and condition, used to observe evaluate_rules on a single
rule in isolation. -/
def singleRuleGraph (op : NormativeOp) (el : Element)
    (c : SemanticWorld → CondRet) : DomainLanguageGraph :=
  ⟨[("L", ⟨"L", [], [], [], [⟨0, op, ⟨el, some c, ""⟩, none⟩], [], [], []⟩)], []⟩

def wEmpty : SemanticWorld := ⟨[], []⟩

def entX : EntityType := ⟨"X"⟩

def elemX : Element := Element.entity entX

def condTrue : SemanticWorld → CondRet := fun _ => CondRet.retBool true

def condFalseRet : SemanticWorld → CondRet := fun _ => CondRet.retBool false

def condUnknownRet : SemanticWorld → CondRet := fun _ => CondRet.retUnknown

def condRaises : SemanticWorld → CondRet := fun _ => CondRet.raises "boom"

-- Rules on the shared target `Entity(X)` for the interaction-checker claims.

def ruleMust : NormativeRule := ⟨1, NormativeOp.MUST, ⟨elemX, none, ""⟩, none⟩

def ruleMustNot : NormativeRule := ⟨2, NormativeOp.MUST_NOT, ⟨elemX, none, ""⟩, none⟩

def ruleMustNotCond : NormativeRule :=
  ⟨3, NormativeOp.MUST_NOT, ⟨elemX, some condTrue, "when emergency"⟩, none⟩

def ruleMustCondA : NormativeRule :=
  ⟨4, NormativeOp.MUST, ⟨elemX, some condTrue, "when X"⟩, none⟩

def ruleMustNotCondOverride : NormativeRule :=
  ⟨5, NormativeOp.MUST_NOT, ⟨elemX, some condTrue, "when Y"⟩, some 4⟩

/-- The CONFLICT diagnostic produced by `check_interaction ruleMust
ruleMustNot`. -/
def dConflictMustMustNot : InteractionDiagnostic :=
  ⟨Severity.ERROR, FindingType.CONFLICT, ruleMust, ruleMustNot,
   conflictMsg ruleMust ruleMustNot (elemRepr elemX)⟩

-- A minimal domain for the completeness claim (mirrors the test fixture:
-- a Person entity with a MUST attribute `verified`).

def entPerson : EntityType := ⟨"Person"⟩

def attrVerified : Attribute := ⟨"verified", entPerson, some ValueTag.bool, Optionality.REQUIRED⟩

def ruleMustVerified : NormativeRule :=
  ⟨10, NormativeOp.MUST, ⟨Element.attr attrVerified, none, "Person must be verified"⟩, none⟩

def langPerson : DomainLanguage :=
  ⟨"TestDomain", [entPerson], [(entPerson, [attrVerified])], [], [ruleMustVerified],
   [], [], []⟩

def gPerson : DomainLanguageGraph := ⟨[("TestDomain", langPerson)], []⟩

def elemPersonMissing : SemanticElement :=
  ⟨entPerson, "p1", [("name", Value.str "Alice")], "input"⟩

def elemPersonUnknown : SemanticElement :=
  ⟨entPerson, "p1", [("name", Value.str "Alice"), ("verified", Value.unknown)], "input"⟩

def wPersonMissing : SemanticWorld := ⟨[elemPersonMissing], []⟩

def wPersonUnknown : SemanticWorld := ⟨[elemPersonUnknown], []⟩

-- A graph whose only language carries an always-false constraint, and a
-- world whose single element has an undeclared entity type: vocabulary
-- closure fails while the evaluator still reports the constraint.

def entKnown : EntityType := ⟨"Known"⟩

def entAlien : EntityType := ⟨"Alien"⟩

def cFalse : Constraint :=
  ⟨"always_false", "never satisfied", condFalseRet, []⟩

def langL3 : DomainLanguage :=
  ⟨"L3", [entKnown], [], [], [], [cFalse], [], []⟩

def gL3 : DomainLanguageGraph := ⟨[("L3", langL3)], []⟩

def wAlien : SemanticWorld := ⟨[⟨entAlien, "a1", [], ""⟩], []⟩

-- A graph whose only language has a SHOULD rule with a raising condition.

def ruleShouldRaise : NormativeRule :=
  ⟨20, NormativeOp.SHOULD, ⟨elemX, some condRaises, "review"⟩, none⟩

def langL6 : DomainLanguage :=
  ⟨"L6", [entX], [], [], [ruleShouldRaise], [], [], []⟩

def gL6 : DomainLanguageGraph := ⟨[("L6", langL6)], []⟩

-- A language combining a raising MUST_NOT rule, a raising constraint and
-- a failing constraint, to observe the error-handling paths together.

def ruleMustNotRaise : NormativeRule :=
  ⟨21, NormativeOp.MUST_NOT, ⟨elemX, some condRaises, "no boom"⟩, none⟩

def cRaise : Constraint := ⟨"raiser", "raises", condRaises, []⟩

def langL6b : DomainLanguage :=
  ⟨"L6b", [entX], [], [], [ruleMustNotRaise], [cRaise, cFalse], [], []⟩

def gL6b : DomainLanguageGraph := ⟨[("L6b", langL6b)], []⟩

-- A language whose normative rule targets a declared relation: the target
-- is outside vocab() yet check_closure reports nothing.

def entE : EntityType := ⟨"E"⟩

def relR : Relation := ⟨"R", entE, entE⟩

def ruleMustRel : NormativeRule :=
  ⟨30, NormativeOp.MUST, ⟨Element.rel relR, none, ""⟩, none⟩

def langL7 : DomainLanguage :=
  ⟨"L7", [entE], [], [], [ruleMustRel], [], [], [relR]⟩

-- A language with a rule on an undeclared entity type, for exercising the
-- unknown-target error of check_closure.

def entGhost : EntityType := ⟨"Ghost"⟩

def ruleMustGhost : NormativeRule :=
  ⟨31, NormativeOp.MUST, ⟨Element.entity entGhost, none, ""⟩, none⟩

def langL7b : DomainLanguage :=
  ⟨"L7b", [entE], [], [], [ruleMustGhost], [], [], []⟩

-- A two-node graph with the single import edge B→A: acyclic, yet the
-- source's order puts A before B.

def langNodeA : DomainLanguage := ⟨"A", [⟨"A_Entity"⟩], [], [], [], [], [], []⟩

def langNodeB : DomainLanguage := ⟨"B", [⟨"B_Entity"⟩], [], [], [], [], [], []⟩

def gBA : DomainLanguageGraph :=
  ⟨[("A", langNodeA), ("B", langNodeB)], [⟨"B", "A"⟩]⟩

-- A world with one unprovenanced element for the traceability claim.

def wNoProv : SemanticWorld := ⟨[⟨entX, "x1", [], ""⟩], []⟩

-- ===========================================================================
-- Theorems
-- ===========================================================================

/-- Helper: a conflicting operator pair is never compatible (the two tables
of normative.py partition the ten unordered pairs). -/
theorem conflicting_not_compatible (a b : NormativeOp)
    (h : pairMem conflictingPairs a b = true) : is_compatible_pair a b = false := by
  revert h
  cases a <;> cases b <;> decide

/-- Helper: unordered-pair membership is symmetric in the two operators. -/
theorem pairMem_conflicting_symm (a b : NormativeOp) :
    pairMem conflictingPairs a b = pairMem conflictingPairs b a := by
  cases a <;> cases b <;> rfl

/-- Helper: the override test is false when neither rule carries an
override reference. -/
theorem overridePresent_none (a b : NormativeRule)
    (ha : a.override_ref = none) (hb : b.override_ref = none) :
    overridePresent a b = false := by
  unfold overridePresent
  rw [ha, hb]
  rfl

/-- Claim C1: for a conflicting pair at equal specificity, an override
reference naming the other rule yields OVERRIDE/INFO; with no override
reference the pair yields CONFLICT/ERROR when both rules are unconditional
and AMBIGUITY/WARNING when both are conditional. -/
theorem check_interaction_equal_specificity
    (a b : NormativeRule)
    (hT : a.target.element = b.target.element)
    (hC : pairMem conflictingPairs a.operator b.operator = true)
    (hS : a.target.condition.isSome = b.target.condition.isSome) :
    (overridePresent a b = true →
       (check_interaction a b).map diagKind =
         some (Severity.INFO, FindingType.OVERRIDE))
    ∧ (a.override_ref = none → b.override_ref = none →
       a.target.condition = none →
       (check_interaction a b).map diagKind =
         some (Severity.ERROR, FindingType.CONFLICT))
    ∧ (a.override_ref = none → b.override_ref = none →
       a.target.condition.isSome = true →
       (check_interaction a b).map diagKind =
         some (Severity.WARNING, FindingType.AMBIGUITY)) := by
  have hcomp := conflicting_not_compatible _ _ hC
  refine ⟨?_, ?_, ?_⟩
  · intro hov
    by_cases hcond : a.target.condition.isSome
    · simp [check_interaction, hT, hcomp, hcond, ← hS, hov, diagKind]
    · simp [check_interaction, hT, hcomp, hcond, ← hS, hov, diagKind]
  · intro ha hb hcond
    have hov := overridePresent_none a b ha hb
    have hcond2 : a.target.condition.isSome = false := by rw [hcond]; rfl
    simp [check_interaction, hT, hcomp, hcond2, ← hS, hov, diagKind]
  · intro ha hb hcond
    have hov := overridePresent_none a b ha hb
    simp [check_interaction, hT, hcomp, hcond, ← hS, hov, diagKind]

/-- Witness for C1: the unconditional MUST / MUST_NOT pair on the same
target with no override yields CONFLICT/ERROR. -/
theorem check_interaction_equal_specificity_witness :
    (check_interaction ruleMust ruleMustNot).map diagKind =
      some (Severity.ERROR, FindingType.CONFLICT) :=
  (check_interaction_equal_specificity ruleMust ruleMustNot rfl (by decide) rfl).2.1
    rfl rfl rfl

/-- Claim C5: for a conflicting pair with exactly one conditional rule,
check_interaction yields EXCEPTION/INFO with the conditional rule recorded
as the specific (rule_a) slot and the unconditional one as the general
(rule_b) slot, identically for both argument orders. -/
theorem exception_lex_specialis_symmetric
    (a b : NormativeRule)
    (hT : a.target.element = b.target.element)
    (hC : pairMem conflictingPairs a.operator b.operator = true)
    (hA : a.target.condition.isSome = true)
    (hB : b.target.condition.isSome = false) :
    check_interaction a b =
      some ⟨Severity.INFO, FindingType.EXCEPTION, a, b,
            exceptionMsg a b (elemRepr a.target.element)⟩
    ∧ check_interaction b a =
      some ⟨Severity.INFO, FindingType.EXCEPTION, a, b,
            exceptionMsg a b (elemRepr a.target.element)⟩ := by
  have hcomp := conflicting_not_compatible _ _ hC
  have hcomp2 : is_compatible_pair b.operator a.operator = false := by
    refine conflicting_not_compatible _ _ ?_
    rw [pairMem_conflicting_symm]
    exact hC
  constructor
  · simp [check_interaction, hT, hcomp, hA, hB]
  · simp [check_interaction, hT.symm, hcomp2, hA, hB, ← hT]

/-- Witness for C5: a conditional MUST_NOT against an unconditional MUST
yields the same EXCEPTION diagnostic in both argument orders. -/
theorem exception_lex_specialis_symmetric_witness :
    check_interaction ruleMustNotCond ruleMust =
      some ⟨Severity.INFO, FindingType.EXCEPTION, ruleMustNotCond, ruleMust,
            exceptionMsg ruleMustNotCond ruleMust (elemRepr ruleMustNotCond.target.element)⟩
    ∧ check_interaction ruleMust ruleMustNotCond =
      some ⟨Severity.INFO, FindingType.EXCEPTION, ruleMustNotCond, ruleMust,
            exceptionMsg ruleMustNotCond ruleMust (elemRepr ruleMustNotCond.target.element)⟩ :=
  exception_lex_specialis_symmetric ruleMustNotCond ruleMust rfl (by decide) rfl rfl

/-- Helper: check_interaction never returns a NO_DEFAULT finding (all five
produced kinds are OVERLAP, EXCEPTION, OVERRIDE, AMBIGUITY, CONFLICT). -/
theorem check_interaction_no_no_default (a b : NormativeRule)
    (d : InteractionDiagnostic) (h : check_interaction a b = some d) :
    d.finding_type ≠ FindingType.NO_DEFAULT := by
  unfold check_interaction at h
  repeat' split at h
  all_goals first
    | exact Option.noConfusion h
    | (injection h with h2
       subst h2
       exact fun hx => FindingType.noConfusion hx)

/-- Claim C8: check_all_interactions never produces a NO_DEFAULT finding:
the variant exists in the taxonomy but the pairwise procedure cannot emit
it. -/
theorem check_all_interactions_no_default_absent
    (rules : List NormativeRule) (d : InteractionDiagnostic)
    (h : d ∈ check_all_interactions rules) :
    d.finding_type ≠ FindingType.NO_DEFAULT := by
  induction rules with
  | nil => simp [check_all_interactions] at h
  | cons r rest ih =>
      simp only [check_all_interactions, List.mem_append] at h
      rcases h with h | h
      · rcases List.mem_filterMap.mp h with ⟨s, _, hs⟩
        exact check_interaction_no_no_default r s d hs
      · exact ih h

/-- Witness for C8: the CONFLICT finding on the MUST / MUST_NOT pair is
not NO_DEFAULT. -/
theorem check_all_interactions_no_default_absent_witness :
    dConflictMustMustNot.finding_type ≠ FindingType.NO_DEFAULT :=
  check_all_interactions_no_default_absent [ruleMust, ruleMustNot] dConflictMustMustNot
    (by rw [show check_all_interactions [ruleMust, ruleMustNot] =
              [dConflictMustMustNot] from rfl]
        exact List.mem_singleton.mpr rfl)

/-- Claim C9: the No Implicit Inference condition always has status PASS;
an element or relation with empty provenance only contributes a detail
string, and since the fourth condition always passes, admissibility is
exactly the conjunction of the other three conditions. -/
theorem no_inference_always_passes (w : SemanticWorld) :
    (check_no_inference w).status = ConditionStatus.PASS
    ∧ (∀ e ∈ w.elements, e.provenance = "" →
        noProvElemMsg e ∈ (check_no_inference w).details)
    ∧ (∀ r ∈ w.relations, r.provenance = "" →
        noProvRelMsg r ∈ (check_no_inference w).details)
    ∧ (∀ g : DomainLanguageGraph,
        (check_admissibility g w).is_admissible =
          ((check_vocabulary_closure g w).passed &&
           ((check_relation_admissibility g w).passed &&
            (check_completeness g w).passed))) := by
  refine ⟨rfl, ?_, ?_, ?_⟩
  · intro e he hp
    show noProvElemMsg e ∈ _ ++ _
    exact List.mem_append_left _
      (List.mem_filterMap.mpr ⟨e, he, by rw [if_pos hp]⟩)
  · intro r hr hp
    show noProvRelMsg r ∈ _ ++ _
    exact List.mem_append_right _
      (List.mem_filterMap.mpr ⟨r, hr, by rw [if_pos hp]⟩)
  · intro g
    have h4 : (check_no_inference w).passed = true := rfl
    simp only [check_admissibility, AdmissibilityResult.is_admissible,
      List.all_cons, List.all_nil, h4, Bool.and_true]

/-- Witness for C9: a world with one unprovenanced element passes the
condition while recording the advisory detail. -/
theorem no_inference_always_passes_witness :
    (check_no_inference wNoProv).status = ConditionStatus.PASS
    ∧ noProvElemMsg ⟨entX, "x1", [], ""⟩ ∈ (check_no_inference wNoProv).details :=
  ⟨(no_inference_always_passes wNoProv).1,
   (no_inference_always_passes wNoProv).2.1 ⟨entX, "x1", [], ""⟩
     (List.mem_singleton.mpr rfl) rfl⟩

/-- Claim C4 (code bug): on the acyclic graph whose single import edge is
B→A, topological_order returns ["A", "B"], so the edge's source B does not
precede its target A — the loop never increments any in-degree, and the
function returns the sorted name list for every acyclic graph. -/
theorem topological_order_edge_not_respected :
    topological_order gBA = some ["A", "B"]
    ∧ gBA.edges = [⟨"B", "A"⟩]
    ∧ detect_import_cycles gBA = [] := by
  refine ⟨by decide, rfl, by decide⟩

/-- Counterexample for C7: a normative rule targeting a declared relation
has a target outside vocab() (entities, attributes, operations), yet
check_closure reports no error, because the source also admits the
language's relations. -/
theorem check_closure_relation_target_cex :
    Element.rel relR ∉ vocab langL7
    ∧ ruleMustRel ∈ langL7.normative_rules
    ∧ ruleMustRel.target.element = Element.rel relR
    ∧ check_closure langL7 none = [] := by
  refine ⟨by decide, List.mem_singleton.mpr rfl, rfl, by decide⟩

/-- Claim C7 (amended): check_closure reports an error for every rule whose
target is not in the union of the local vocabulary, the language's declared
relations, and (when resolved imports are supplied) the vocab of each
directly resolved import; an unresolved import name is reported as a
distinct error. -/
theorem check_closure_reports_unknown_targets
    (lang : DomainLanguage)
    (resolvedImports : Option (List (String × DomainLanguage))) :
    (∀ rule ∈ lang.normative_rules,
       rule.target.element ∉ allElementsOf lang resolvedImports →
       closureRuleErr rule ∈ check_closure lang resolvedImports)
    ∧ (∀ (m : List (String × DomainLanguage)) (imp : ImportDecl),
       resolvedImports = some m → imp ∈ lang.imports →
       lookupLang m imp.target_name = none →
       unresolvedImportMsg imp.target_name ∈ check_closure lang resolvedImports)
    ∧ (∀ (n : String) (rule : NormativeRule),
       unresolvedImportMsg n ≠ closureRuleErr rule) := by
  refine ⟨?_, ?_, ?_⟩
  · intro rule hm hnot
    show closureRuleErr rule ∈ _ ++ _
    exact List.mem_append_right _
      (List.mem_filterMap.mpr ⟨rule, hm, by rw [if_neg hnot]⟩)
  · intro m imp hri hmem hlook
    subst hri
    show unresolvedImportMsg imp.target_name ∈ _ ++ _
    refine List.mem_append_left _ (List.mem_filterMap.mpr ⟨imp, hmem, ?_⟩)
    rw [hlook]
    rfl
  · intro n rule h
    have h1 : (unresolvedImportMsg n).data.head? = some 'U' := by
      simp only [unresolvedImportMsg]
      rw [String.data_append]
      rfl
    have h2 : (closureRuleErr rule).data.head? = some 'N' := by
      simp only [closureRuleErr]
      rw [String.data_append, String.data_append, String.data_append]
      rfl
    rw [h, h2] at h1
    exact absurd h1 (by decide)

/-- Witness for C7 (amended): a rule on an undeclared entity type is
reported by check_closure. -/
theorem check_closure_reports_unknown_targets_witness :
    closureRuleErr ruleMustGhost ∈ check_closure langL7b none :=
  (check_closure_reports_unknown_targets langL7b none).1 ruleMustGhost
    (List.mem_singleton.mpr rfl) (by decide)

/-- Helper: status computed from a details list that is provably nonempty
is FAIL. -/
theorem status_of_ne_nil (l : List String) (h : l ≠ []) :
    (if l.isEmpty then ConditionStatus.PASS else ConditionStatus.FAIL) =
      ConditionStatus.FAIL := by
  cases l with
  | nil => exact absurd rfl h
  | cons a t => rfl

/-- Helper: a MUST-attribute rule and an element of the owning type whose
attribute map lacks the key produce a failure entry in the completeness
scan. -/
theorem completeness_failure_entry
    (g : DomainLanguageGraph) (w : SemanticWorld) (lang : DomainLanguage)
    (rule : NormativeRule) (a : Attribute) (e : SemanticElement)
    (hl : lang ∈ langValues g) (hr : rule ∈ lang.normative_rules)
    (hop : rule.operator = NormativeOp.MUST)
    (hel : rule.target.element = Element.attr a)
    (he : e ∈ w.elements) (het : e.entity_type = a.entity)
    (hget : attrGet e.attribute_values a.name = none) :
    (mustAttrOmitMsg a e, true) ∈ completenessEntries g w := by
  refine List.mem_flatMap.mpr ⟨lang, hl, List.mem_flatMap.mpr ⟨rule, hr, ?_⟩⟩
  unfold completenessEntriesOfRule
  rw [if_pos hop, hel]
  refine List.mem_filterMap.mpr ⟨e, List.mem_filter.mpr ⟨he, decide_eq_true het⟩, ?_⟩
  unfold completenessEntryOfElem
  rw [hget]

/-- Helper: a MUST-attribute rule and an element carrying the explicit
UNKNOWN sentinel produce an explicit-gap entry in the completeness scan. -/
theorem completeness_unknown_entry
    (g : DomainLanguageGraph) (w : SemanticWorld) (lang : DomainLanguage)
    (rule : NormativeRule) (a : Attribute) (e : SemanticElement)
    (hl : lang ∈ langValues g) (hr : rule ∈ lang.normative_rules)
    (hop : rule.operator = NormativeOp.MUST)
    (hel : rule.target.element = Element.attr a)
    (he : e ∈ w.elements) (het : e.entity_type = a.entity)
    (hget : attrGet e.attribute_values a.name = some Value.unknown) :
    (mustAttrUnknownMsg a e, false) ∈ completenessEntries g w := by
  refine List.mem_flatMap.mpr ⟨lang, hl, List.mem_flatMap.mpr ⟨rule, hr, ?_⟩⟩
  unfold completenessEntriesOfRule
  rw [if_pos hop, hel]
  refine List.mem_filterMap.mpr ⟨e, List.mem_filter.mpr ⟨he, decide_eq_true het⟩, ?_⟩
  unfold completenessEntryOfElem
  rw [hget]

/-- Claim C2: for a MUST rule on an attribute, an element of the owning
entity type with no entry for the attribute makes Completeness FAIL; an
element whose entry is exactly UNKNOWN (with no completeness failure
anywhere) makes it UNKNOWN_PRESENT, which counts as passing, so
is_admissible and is_valid stay true whenever every other condition
passes. -/
theorem completeness_must_attribute
    (g : DomainLanguageGraph) (w : SemanticWorld) (lang : DomainLanguage)
    (rule : NormativeRule) (a : Attribute)
    (hl : lang ∈ langValues g) (hr : rule ∈ lang.normative_rules)
    (hop : rule.operator = NormativeOp.MUST)
    (hel : rule.target.element = Element.attr a) :
    (∀ e ∈ w.elements, e.entity_type = a.entity →
       attrGet e.attribute_values a.name = none →
       (check_completeness g w).status = ConditionStatus.FAIL)
    ∧ (completeness_failed g w = false →
       ∀ e ∈ w.elements, e.entity_type = a.entity →
       attrGet e.attribute_values a.name = some Value.unknown →
       (check_completeness g w).status = ConditionStatus.UNKNOWN_PRESENT
       ∧ (check_completeness g w).passed = true
       ∧ ((check_vocabulary_closure g w).passed = true →
          (check_relation_admissibility g w).passed = true →
          (check_admissibility g w).is_admissible = true)
       ∧ ((check_vocabulary_closure g w).passed = true →
          (check_relation_admissibility g w).passed = true →
          (check_consistency g w).passed = true →
          (validate g w).is_valid = true)) := by
  constructor
  · intro e he het hget
    have hmem := completeness_failure_entry g w lang rule a e hl hr hop hel he het hget
    have hfail : completeness_failed g w = true :=
      List.any_eq_true.mpr ⟨(mustAttrOmitMsg a e, true), hmem, rfl⟩
    simp [check_completeness, hfail]
  · intro hf e he het hget
    have hmem := completeness_unknown_entry g w lang rule a e hl hr hop hel he het hget
    have hunk : completeness_has_unknowns g w = true :=
      List.any_eq_true.mpr ⟨(mustAttrUnknownMsg a e, false), hmem, rfl⟩
    have hstatus : (check_completeness g w).status = ConditionStatus.UNKNOWN_PRESENT := by
      simp [check_completeness, hf, hunk]
    have hpassed : (check_completeness g w).passed = true := by
      simp [ConditionResult.passed, hstatus]
    have h4 : (check_no_inference w).passed = true := rfl
    refine ⟨hstatus, hpassed, ?_, ?_⟩
    · intro h1 h2
      simp only [check_admissibility, AdmissibilityResult.is_admissible,
        List.all_cons, List.all_nil, h1, h2, hpassed, h4, Bool.and_true,
        Bool.and_self]
    · intro h1 h2 h5
      simp only [validate, ValidationResult.is_valid,
        List.all_cons, List.all_nil, h1, h2, h5, hpassed, h4, Bool.and_true,
        Bool.and_self]

/-- Witness for C2: in the Person domain a missing `verified` entry fails
Completeness; the same attribute explicitly UNKNOWN yields
UNKNOWN_PRESENT and overall validity remains true. -/
theorem completeness_must_attribute_witness :
    (check_completeness gPerson wPersonMissing).status = ConditionStatus.FAIL
    ∧ (check_completeness gPerson wPersonUnknown).status = ConditionStatus.UNKNOWN_PRESENT
    ∧ (validate gPerson wPersonUnknown).is_valid = true := by
  refine ⟨?_, ?_, ?_⟩
  · exact (completeness_must_attribute gPerson wPersonMissing langPerson
      ruleMustVerified attrVerified (List.mem_singleton.mpr rfl)
      (List.mem_singleton.mpr rfl) rfl rfl).1 elemPersonMissing
      (List.mem_singleton.mpr rfl) rfl rfl
  · exact ((completeness_must_attribute gPerson wPersonUnknown langPerson
      ruleMustVerified attrVerified (List.mem_singleton.mpr rfl)
      (List.mem_singleton.mpr rfl) rfl rfl).2 (by decide) elemPersonUnknown
      (List.mem_singleton.mpr rfl) rfl rfl).1
  · exact ((completeness_must_attribute gPerson wPersonUnknown langPerson
      ruleMustVerified attrVerified (List.mem_singleton.mpr rfl)
      (List.mem_singleton.mpr rfl) rfl rfl).2 (by decide) elemPersonUnknown
      (List.mem_singleton.mpr rfl) rfl rfl).2.2.2 (by decide) (by decide) (by decide)

/-- Counterexample for C3: with an undeclared entity type in the world,
Vocabulary Closure FAILs and the world is not admissible, yet validate
still runs the evaluator: the Consistency condition carries the failing
constraint of the language. -/
theorem validate_gating_cex :
    (check_vocabulary_closure gL3 wAlien).status = ConditionStatus.FAIL
    ∧ (check_admissibility gL3 wAlien).is_admissible = false
    ∧ constraintFailMsg "L3" cFalse ∈ (evaluate_rules gL3 wAlien).constraint_failures
    ∧ (validate gL3 wAlien).conditions.map (fun c => c.status) =
        [ConditionStatus.FAIL, ConditionStatus.PASS, ConditionStatus.PASS,
         ConditionStatus.PASS, ConditionStatus.FAIL] := by
  refine ⟨rfl, rfl, List.mem_singleton.mpr rfl, rfl⟩

/-- Claim C3 (amended): an element whose entity type is outside the
composed vocabulary makes Vocabulary Closure FAIL; however validate does
not gate on admissibility — its fifth condition is always the Consistency
condition computed by running evaluate_rules, even when conditions 1-4
fail. -/
theorem vocabulary_closure_and_ungated_consistency
    (g : DomainLanguageGraph) (w : SemanticWorld) :
    (∀ e ∈ w.elements, e.entity_type ∉ composedEntityTypes g →
       (check_vocabulary_closure g w).status = ConditionStatus.FAIL)
    ∧ (validate g w).conditions =
        [check_vocabulary_closure g w, check_relation_admissibility g w,
         check_completeness g w, check_no_inference w, check_consistency g w]
    ∧ (check_consistency g w).details =
        (evaluate_rules g w).violations ++ (evaluate_rules g w).advisories ++
          (evaluate_rules g w).constraint_failures.map
            (fun cf => "Constraint violation: " ++ cf) := by
  refine ⟨?_, rfl, rfl⟩
  intro e he hnot
  have hm : vocabElemMsg e ∈
      w.elements.filterMap (fun x =>
        if x.entity_type ∈ composedEntityTypes g then none else some (vocabElemMsg x)) :=
    List.mem_filterMap.mpr ⟨e, he, by rw [if_neg hnot]⟩
  exact status_of_ne_nil _ (List.ne_nil_of_mem (List.mem_append_left _ hm))

/-- Witness for C3 (amended): the Alien element makes Vocabulary Closure
FAIL on the concrete graph. -/
theorem vocabulary_closure_and_ungated_consistency_witness :
    (check_vocabulary_closure gL3 wAlien).status = ConditionStatus.FAIL :=
  (vocabulary_closure_and_ungated_consistency gL3 wAlien).1 ⟨entAlien, "a1", [], ""⟩
    (List.mem_singleton.mpr rfl) (by decide)

/-- Counterexample for C6: a SHOULD condition that raises is caught but
reported nowhere — evaluate_rules returns entirely empty results, so the
error is not converted to any detail string. -/
theorem should_raise_silent_cex :
    condRaises wEmpty = CondRet.raises "boom"
    ∧ ruleShouldRaise ∈ langL6.normative_rules
    ∧ ruleShouldRaise.operator = NormativeOp.SHOULD
    ∧ ruleShouldRaise.target.condition = some condRaises
    ∧ evaluate_rules gL6 wEmpty = ⟨[], [], []⟩ :=
  ⟨rfl, List.mem_singleton.mpr rfl, rfl, rfl, rfl⟩

/-- Claim C6 (amended): a raising MUST_NOT condition is caught and reported
as a violations string, a raising constraint predicate as a
constraint-failures string; a raising SHOULD or SHOULD_NOT condition is
caught but silently ignored; in every case nothing propagates and the
remaining rules and constraints are still evaluated (a failing constraint
is reported regardless of what else raised). -/
theorem evaluate_rules_error_handling
    (g : DomainLanguageGraph) (w : SemanticWorld) :
    (∀ lang ∈ langValues g, ∀ rule ∈ lang.normative_rules,
       ∀ (c : SemanticWorld → CondRet) (e : String),
       rule.operator = NormativeOp.MUST_NOT → rule.target.condition = some c →
       c w = CondRet.raises e →
       mustNotErrMsg e ∈ (evaluate_rules g w).violations)
    ∧ (∀ lang ∈ langValues g, ∀ con ∈ lang.constraints, ∀ e : String,
       con.predicate w = CondRet.raises e →
       constraintErrMsg con.name e ∈ (evaluate_rules g w).constraint_failures)
    ∧ (∀ (rule : NormativeRule) (c : SemanticWorld → CondRet) (e : String),
       rule.target.condition = some c → c w = CondRet.raises e →
       should_advisories w rule = [] ∧ should_not_advisories w rule = [])
    ∧ (∀ lang ∈ langValues g, ∀ con ∈ lang.constraints,
       con.predicate w = CondRet.retBool false →
       constraintFailMsg lang.name con ∈ (evaluate_rules g w).constraint_failures) := by
  refine ⟨?_, ?_, ?_, ?_⟩
  · intro lang hl rule hr c e hop hcond hcw
    refine List.mem_flatMap.mpr ⟨lang, hl, List.mem_flatMap.mpr ⟨rule, hr, ?_⟩⟩
    unfold must_not_violations
    rw [if_pos hop]
    simp only [hcond, hcw]
    exact List.mem_singleton.mpr rfl
  · intro lang hl con hc e hp
    refine List.mem_flatMap.mpr ⟨lang, hl, List.mem_flatMap.mpr ⟨con, hc, ?_⟩⟩
    unfold constraint_failures_of
    rw [hp]
    exact List.mem_singleton.mpr rfl
  · intro rule c e hcond hcw
    constructor
    · unfold should_advisories
      split
      · simp only [hcond, hcw]
      · rfl
    · unfold should_not_advisories
      split
      · simp only [hcond, hcw]
      · rfl
  · intro lang hl con hc hp
    refine List.mem_flatMap.mpr ⟨lang, hl, List.mem_flatMap.mpr ⟨con, hc, ?_⟩⟩
    unfold constraint_failures_of
    rw [hp]
    exact List.mem_singleton.mpr rfl

/-- Witness for C6 (amended): in a language with a raising MUST_NOT rule,
a raising constraint and a failing constraint, both error strings and the
failure string are all present, and a raising SHOULD rule reports
nothing. -/
theorem evaluate_rules_error_handling_witness :
    mustNotErrMsg "boom" ∈ (evaluate_rules gL6b wEmpty).violations
    ∧ constraintErrMsg "raiser" "boom" ∈ (evaluate_rules gL6b wEmpty).constraint_failures
    ∧ should_advisories wEmpty ruleShouldRaise = []
    ∧ constraintFailMsg "L6b" cFalse ∈ (evaluate_rules gL6b wEmpty).constraint_failures := by
  refine ⟨?_, ?_, ?_, ?_⟩
  · exact (evaluate_rules_error_handling gL6b wEmpty).1 langL6b
      (List.mem_singleton.mpr rfl) ruleMustNotRaise (List.mem_singleton.mpr rfl)
      condRaises "boom" rfl rfl rfl
  · exact (evaluate_rules_error_handling gL6b wEmpty).2.1 langL6b
      (List.mem_singleton.mpr rfl) cRaise (List.mem_cons_self cRaise [cFalse])
      "boom" rfl
  · exact ((evaluate_rules_error_handling gL6b wEmpty).2.2.1 ruleShouldRaise
      condRaises "boom" rfl rfl).1
  · exact (evaluate_rules_error_handling gL6b wEmpty).2.2.2 langL6b
      (List.mem_singleton.mpr rfl) cFalse
      (List.mem_cons_of_mem cRaise (List.mem_singleton.mpr rfl)) rfl

/-- Claim C10: a rule condition that returns the UNKNOWN sentinel is falsy,
so a MUST_NOT, SHOULD or SHOULD_NOT rule contributes no violation and no
advisory, exactly as when the condition returns False — and evaluate_rules
on a one-rule language cannot distinguish the two conditions. -/
theorem unknown_condition_like_false :
    (∀ (w : SemanticWorld) (rule : NormativeRule) (c : SemanticWorld → CondRet),
       rule.target.condition = some c →
       (c w = CondRet.retUnknown ∨ c w = CondRet.retBool false) →
       must_not_violations w rule = [] ∧ should_advisories w rule = []
       ∧ should_not_advisories w rule = [])
    ∧ (∀ (op : NormativeOp) (el : Element) (c1 c2 : SemanticWorld → CondRet)
         (w : SemanticWorld),
       c1 w = CondRet.retUnknown → c2 w = CondRet.retBool false →
       evaluate_rules (singleRuleGraph op el c1) w =
         evaluate_rules (singleRuleGraph op el c2) w) := by
  constructor
  · intro w rule c hcond hcw
    refine ⟨?_, ?_, ?_⟩
    · unfold must_not_violations
      split
      · rcases hcw with h | h <;> simp only [hcond, h] <;> rfl
      · rfl
    · unfold should_advisories
      split
      · rcases hcw with h | h <;> simp only [hcond, h] <;> rfl
      · rfl
    · unfold should_not_advisories
      split
      · rcases hcw with h | h <;> simp only [hcond, h] <;> rfl
      · rfl
  · intro op el c1 c2 w h1 h2
    cases op <;>
      simp [evaluate_rules, singleRuleGraph, langValues,
        must_not_violations, should_advisories, should_not_advisories,
        h1, h2, truthy]

/-- Witness for C10: a MUST_NOT condition answering UNKNOWN yields no
violations, and the one-rule graphs with UNKNOWN and False conditions
evaluate identically. -/
theorem unknown_condition_like_false_witness :
    must_not_violations wEmpty
        ⟨40, NormativeOp.MUST_NOT, ⟨elemX, some condUnknownRet, ""⟩, none⟩ = []
    ∧ evaluate_rules (singleRuleGraph NormativeOp.MUST_NOT elemX condUnknownRet) wEmpty =
        evaluate_rules (singleRuleGraph NormativeOp.MUST_NOT elemX condFalseRet) wEmpty :=
  ⟨(unknown_condition_like_false.1 wEmpty
      ⟨40, NormativeOp.MUST_NOT, ⟨elemX, some condUnknownRet, ""⟩, none⟩
      condUnknownRet rfl (Or.inl rfl)).1,
   unknown_condition_like_false.2 NormativeOp.MUST_NOT elemX
     condUnknownRet condFalseRet wEmpty rfl rfl⟩

end DDS
